import Mathlib

/-!
Verification of the multi-day TSP model builder and solution decoder
(`tsp_multiple_days.py`).

The script augments a real-location graph with synthetic night and morning
nodes, builds an OR-Tools routing model (a Time dimension, a Counting
dimension, slack pinning, disjunctions, time-window bounds and day-ordering
constraints), solves it, and decodes the solution.

The embedding below mirrors `main()` line by line:
  * `build_model` covers the configuration check and the static model data
    produced by lines 36-158 of the script (node ranges, dimension bounds,
    slack pinning, disjunctions, time windows);
  * `day_order_constraints` is the set of constraints posted to the solver
    by the loops at lines 163-200, phrased as a predicate on an assignment
    of the per-node activation variables (0/1) and the Counting dimension
    cumulative variables;
  * `dropped_nodes` is the decoder loop at lines 235-242;
  * `timedelta_format` is the helper at lines 8-11, with Python's
    `datetime.time` constructor range checks made explicit.
-/

namespace TspMultipleDays

/-- Drop penalty for real locations, line 48 of the script. -/
def disjunction_penalty : Int := 10000000

/-- Static data of the routing model built by `main()`: the augmented node
ranges plus every per-node bound the builder writes into the engine.
`slack_zero_nodes` lists the nodes whose Time slack variable is pinned to 0;
`disjunctions` lists each `AddDisjunction` call as (node list, penalty);
`time_windows` lists each `CumulVar(index).SetRange(lo, hi)` call as
(node, lo, hi); `start_cumul_min` / `end_cumul_max` record the bounds put on
the route start and end cumulative variables. -/
structure Model where
  num_nodes : Nat
  num_days : Nat
  night_nodes : List Nat
  morning_nodes : List Nat
  total_nodes : Nat
  Slack_Max : Int
  Capacity : Int
  slack_zero_nodes : List Nat
  disjunctions : List (List Nat × Int)
  time_windows : List (Nat × Int × Int)
  start_cumul_min : Int
  end_cumul_max : Int
deriving DecidableEq

/-- Transliteration of `main()` lines 36-158: reject `days <= 0`
(lines 39-41, the `assert` aborts the program before any model object is
created), then build the augmented node space and the static model data.
Python's `range(a, b)` is `List.range' a (b - a)`. -/
def build_model (days start_hour end_hour : Int) (skip_mornings : Bool)
    (num_nodes : Nat) : Except String Model :=
  let day_start := start_hour * 3600
  let day_end := end_hour * 3600
  if days ≤ 0 then
    Except.error ("--days parameter must be 1 or more")
  else
    let num_days := (days - 1).toNat
    let night_nodes := List.range' num_nodes num_days
    let morning_nodes :=
      if skip_mornings then [] else List.range' (num_nodes + num_days) num_days
    let total_nodes := num_nodes + night_nodes.length + morning_nodes.length
    let Slack_Max := (day_end - day_start) - day_start
    let Capacity := day_end
    let slack_zero_nodes := List.range' 2 (num_nodes - 2) ++ morning_nodes
    let disjunctions :=
      ((List.range' 2 (num_nodes - 2)).map fun n => ([n], disjunction_penalty))
        ++ (night_nodes.map fun n => ([n], (0 : Int)))
        ++ (morning_nodes.map fun n => ([n], (0 : Int)))
    let time_windows :=
      ((List.range' 2 (num_nodes - 2)).map fun n => (n, day_start, day_end))
        ++ ((List.range' num_nodes (total_nodes - num_nodes)).map
              fun n => (n, day_start, day_end))
    Except.ok
      { num_nodes := num_nodes
        num_days := num_days
        night_nodes := night_nodes
        morning_nodes := morning_nodes
        total_nodes := total_nodes
        Slack_Max := Slack_Max
        Capacity := Capacity
        slack_zero_nodes := slack_zero_nodes
        disjunctions := disjunctions
        time_windows := time_windows
        start_cumul_min := day_start
        end_cumul_max := day_end }

/-- Constraints posted by the loops at lines 163-200, as a predicate on an
assignment: `active n` is the value of `routing.ActiveVar` for node `n`
(0 or 1), `count n` the value of the Counting dimension cumulative variable.
Three groups, in source order: the pairwise night-node loop (lines 164-176),
the night/morning pairing added inside the outer night loop when
`i < len(morning_nodes)` (lines 180-185), and the pairwise morning-node loop
(lines 187-200). -/
def day_order_constraints (m : Model) (active count : Nat → Nat) : Prop :=
  (∀ i, i < m.night_nodes.length → ∀ j, j < m.night_nodes.length → i < j →
      active (m.night_nodes.getD j 0) ≤ active (m.night_nodes.getD i 0) ∧
      count (m.night_nodes.getD i 0) * active (m.night_nodes.getD i 0)
          * active (m.night_nodes.getD j 0)
        ≤ count (m.night_nodes.getD j 0) * active (m.night_nodes.getD i 0)
          * active (m.night_nodes.getD j 0)) ∧
  (∀ i, i < m.night_nodes.length → i < m.morning_nodes.length →
      active (m.night_nodes.getD i 0) = active (m.morning_nodes.getD i 0) ∧
      count (m.night_nodes.getD i 0) + 1 = count (m.morning_nodes.getD i 0)) ∧
  (∀ i, i < m.morning_nodes.length → ∀ j, j < m.morning_nodes.length → i < j →
      active (m.morning_nodes.getD j 0) ≤ active (m.morning_nodes.getD i 0) ∧
      count (m.morning_nodes.getD i 0) * active (m.morning_nodes.getD i 0)
          * active (m.morning_nodes.getD j 0)
        ≤ count (m.morning_nodes.getD j 0) * active (m.morning_nodes.getD i 0)
          * active (m.morning_nodes.getD j 0))

/-- Decoder loop at lines 235-242: walk every routing index, skip route
start and end indices, skip indices whose node is a night or morning node,
and record the node when its chosen successor is itself.  `isStart`,
`isEnd`, `indexToNode` are the engine's routing-index interface and `next`
is `solution.Value(routing.NextVar(index))`. -/
def dropped_nodes (size : Nat) (isStart isEnd : Nat → Bool)
    (night_nodes morning_nodes : List Nat)
    (indexToNode : Nat → Nat) (next : Nat → Nat) : List Nat :=
  (List.range size).filterMap fun index =>
    if isStart index || isEnd index then none
    else
      let node := indexToNode index
      if night_nodes.contains node || morning_nodes.contains node then none
      else if next index = index then some node else none

/-- Zero-padded two-digit decimal field, as produced by `strftime` for
`%H` and `%S` on in-range values. -/
def two_digit (n : Int) : String :=
  if n < 10 then "0" ++ toString n else toString n

/-- Python's `datetime.time(hour=h, second=s)` constructor: raises
`ValueError` (here: `none`) unless `0 <= h < 24` and `0 <= s < 60`. -/
def mk_time (hour second : Int) : Option (Int × Int) :=
  if 0 ≤ hour ∧ hour < 24 ∧ 0 ≤ second ∧ second < 60 then
    some (hour, second)
  else none

/-- Transliteration of `timedelta_format` (lines 8-11): with
`ts = int(td.total_seconds())`, build `time(hour=ts//3600,
second=ts%3600//60)` and format it with pattern `%H:%S`.  Python's `//` and
`%` on ints are floor division and floor modulus, which for the positive
divisors here coincide with `Int./` and `Int.%` (Euclidean). -/
def timedelta_format (ts : Int) : Option String :=
  (mk_time (ts / 3600) (ts % 3600 / 60)).map fun t =>
    two_digit t.1 ++ ":" ++ two_digit t.2

/-- Concrete model for days = 3, start 6, end 18, mornings enabled,
5 real locations. -/
def m0 : Model :=
  { num_nodes := 5
    num_days := 2
    night_nodes := [5, 6]
    morning_nodes := [7, 8]
    total_nodes := 9
    Slack_Max := 21600
    Capacity := 64800
    slack_zero_nodes := [2, 3, 4, 7, 8]
    disjunctions := [([2], 10000000), ([3], 10000000), ([4], 10000000),
                     ([5], 0), ([6], 0), ([7], 0), ([8], 0)]
    time_windows := [(2, 21600, 64800), (3, 21600, 64800), (4, 21600, 64800),
                     (5, 21600, 64800), (6, 21600, 64800), (7, 21600, 64800),
                     (8, 21600, 64800)]
    start_cumul_min := 21600
    end_cumul_max := 64800 }

/-- Concrete activation assignment for `m0`: first night/morning pair
active, second pair inactive. -/
def wActive : Nat → Nat := fun n => if n = 6 ∨ n = 8 then 0 else 1

/-- Concrete Counting-dimension assignment for `m0` satisfying the posted
constraints. -/
def wCount : Nat → Nat := fun n =>
  if n = 5 then 10 else if n = 7 then 11
  else if n = 6 then 12 else if n = 8 then 13 else 0

/-- Concrete model for days = 2, start 6, end 18, mornings enabled,
5 real locations: the spec scenario. -/
def mC4 : Model :=
  { num_nodes := 5
    num_days := 1
    night_nodes := [5]
    morning_nodes := [6]
    total_nodes := 7
    Slack_Max := 21600
    Capacity := 64800
    slack_zero_nodes := [2, 3, 4, 6]
    disjunctions := [([2], 10000000), ([3], 10000000), ([4], 10000000),
                     ([5], 0), ([6], 0)]
    time_windows := [(2, 21600, 64800), (3, 21600, 64800), (4, 21600, 64800),
                     (5, 21600, 64800), (6, 21600, 64800)]
    start_cumul_min := 21600
    end_cumul_max := 64800 }

/-- Concrete engine interface for the decoder witness: seven routing
indices, identity node mapping, start at node 0, end at node 1, one night
node 5, one morning node 6, and a solution that self-loops nodes 3 and 5. -/
def wIsStart : Nat → Bool := fun idx => idx = 0

/-- End-index classifier for the decoder witness. -/
def wIsEnd : Nat → Bool := fun idx => idx = 1

/-- Identity routing-index-to-node mapping for the decoder witness. -/
def wIndexToNode : Nat → Nat := fun idx => idx

/-- Successor assignment for the decoder witness: nodes 3 and 5 are
self-looped. -/
def wNext : Nat → Nat := fun idx => if idx = 3 ∨ idx = 5 then idx else idx + 1


theorem build_model_ok {days start_hour end_hour : Int} {skip : Bool} {num : Nat} {m : Model}
    (hm : build_model days start_hour end_hour skip num = Except.ok m) :
    0 < days ∧
    m.num_nodes = num ∧
    m.num_days = (days - 1).toNat ∧
    m.night_nodes = List.range' num (days - 1).toNat ∧
    m.morning_nodes =
      (if skip then [] else List.range' (num + (days - 1).toNat) (days - 1).toNat) ∧
    m.total_nodes = num + m.night_nodes.length + m.morning_nodes.length ∧
    m.Slack_Max = (end_hour * 3600 - start_hour * 3600) - start_hour * 3600 ∧
    m.Capacity = end_hour * 3600 ∧
    m.slack_zero_nodes = List.range' 2 (num - 2) ++ m.morning_nodes ∧
    m.disjunctions =
      ((List.range' 2 (num - 2)).map fun n => ([n], disjunction_penalty))
        ++ (m.night_nodes.map fun n => ([n], (0 : Int)))
        ++ (m.morning_nodes.map fun n => ([n], (0 : Int))) ∧
    m.time_windows =
      ((List.range' 2 (num - 2)).map fun n => (n, start_hour * 3600, end_hour * 3600))
        ++ ((List.range' num (m.total_nodes - num)).map
              fun n => (n, start_hour * 3600, end_hour * 3600)) ∧
    m.start_cumul_min = start_hour * 3600 ∧
    m.end_cumul_max = end_hour * 3600 := by
  unfold build_model at hm
  split at hm
  · exact absurd hm (by simp)
  · next h =>
    injection hm with hm
    subst hm
    refine ⟨by omega, rfl, rfl, rfl, rfl, rfl, rfl, rfl, rfl, rfl, rfl, rfl, rfl⟩

/-- C1: among night nodes (and likewise among morning nodes), every
chronologically ordered pair (i, j) with i < j is constrained by
active(i) >= active(j) and count(i)*active(i)*active(j) <=
count(j)*active(i)*active(j); consequently the activation pattern is
non-increasing, both nodes active forces count(i) <= count(j), and the
order inequality degenerates to 0 <= 0 when either node is inactive. -/
theorem day_ordering_sound (m : Model) (active count : Nat → Nat)
    (h : day_order_constraints m active count) :
    (∀ i, i < m.night_nodes.length → ∀ j, j < m.night_nodes.length → i < j →
        active (m.night_nodes.getD j 0) ≤ active (m.night_nodes.getD i 0)) ∧
    (∀ i, i < m.night_nodes.length → ∀ j, j < m.night_nodes.length → i < j →
        active (m.night_nodes.getD i 0) = 1 → active (m.night_nodes.getD j 0) = 1 →
        count (m.night_nodes.getD i 0) ≤ count (m.night_nodes.getD j 0)) ∧
    (∀ i, i < m.morning_nodes.length → ∀ j, j < m.morning_nodes.length → i < j →
        active (m.morning_nodes.getD j 0) ≤ active (m.morning_nodes.getD i 0)) ∧
    (∀ i, i < m.morning_nodes.length → ∀ j, j < m.morning_nodes.length → i < j →
        active (m.morning_nodes.getD i 0) = 1 → active (m.morning_nodes.getD j 0) = 1 →
        count (m.morning_nodes.getD i 0) ≤ count (m.morning_nodes.getD j 0)) ∧
    (∀ a b : Nat, active a = 0 ∨ active b = 0 →
        count a * active a * active b = 0 ∧ count b * active a * active b = 0) := by
  obtain ⟨hn, _, hm2⟩ := h
  refine ⟨fun i hi j hj hij => (hn i hi j hj hij).1,
          fun i hi j hj hij ha hb => ?_,
          fun i hi j hj hij => (hm2 i hi j hj hij).1,
          fun i hi j hj hij ha hb => ?_,
          fun a b hab => ?_⟩
  · have := (hn i hi j hj hij).2
    rw [ha, hb] at this
    simpa using this
  · have := (hm2 i hi j hj hij).2
    rw [ha, hb] at this
    simpa using this
  · rcases hab with h0 | h0 <;> rw [h0] <;> simp

/-- C2: with morning anchoring enabled every night node has a paired
morning node, the model constrains their activations to be equal and the
morning node's count to be the night node's count plus one, hence no node
can have a count value strictly between the two. -/
theorem night_morning_pairing (days start_hour end_hour : Int) (num : Nat)
    (m : Model) (active count : Nat → Nat)
    (hm : build_model days start_hour end_hour false num = Except.ok m)
    (h : day_order_constraints m active count) :
    m.morning_nodes.length = m.night_nodes.length ∧
    ∀ i, i < m.night_nodes.length →
      active (m.night_nodes.getD i 0) = active (m.morning_nodes.getD i 0) ∧
      count (m.morning_nodes.getD i 0) = count (m.night_nodes.getD i 0) + 1 ∧
      ∀ k : Nat, ¬ (count (m.night_nodes.getD i 0) < count k ∧
                    count k < count (m.morning_nodes.getD i 0)) := by
  obtain ⟨-, -, -, hnight, hmorn, -⟩ := build_model_ok hm
  have hlen : m.morning_nodes.length = m.night_nodes.length := by
    rw [hnight, hmorn]
    simp
  refine ⟨hlen, fun i hi => ?_⟩
  have hip := h.2.1 i hi (by omega)
  refine ⟨hip.1, hip.2.symm, fun k hk => ?_⟩
  rw [← hip.2] at hk
  omega

/-- C3: node augmentation creates days - 1 night nodes starting at
num_real, then days - 1 morning nodes in the next contiguous range (none
when mornings are skipped), giving total_nodes = num_real + 2*(days - 1),
or num_real + (days - 1) with mornings skipped; days = 1 adds nothing. -/
theorem node_augmentation_counts (days start_hour end_hour : Int) (skip : Bool)
    (num : Nat) (m : Model)
    (hm : build_model days start_hour end_hour skip num = Except.ok m) :
    m.night_nodes = List.range' num (days - 1).toNat ∧
    m.night_nodes.length = (days - 1).toNat ∧
    m.morning_nodes =
      (if skip then [] else List.range' (num + (days - 1).toNat) (days - 1).toNat) ∧
    m.morning_nodes.length = (if skip then 0 else (days - 1).toNat) ∧
    m.total_nodes =
      (if skip then num + (days - 1).toNat else num + 2 * (days - 1).toNat) ∧
    (days = 1 → m.night_nodes = [] ∧ m.morning_nodes = [] ∧ m.total_nodes = num) := by
  obtain ⟨-, -, -, hnight, hmorn, htot, -⟩ := build_model_ok hm
  have hlen : m.night_nodes.length = (days - 1).toNat := by rw [hnight]; simp
  have hlenm : m.morning_nodes.length = (if skip then 0 else (days - 1).toNat) := by
    rw [hmorn]
    cases skip <;> simp
  refine ⟨hnight, hlen, hmorn, hlenm, ?_, fun h1 => ?_⟩
  · rw [htot, hlen, hlenm]
    cases skip
    · simp
      omega
    · simp
  · subst h1
    rw [htot, hlen, hlenm]
    norm_num
    exact ⟨by rw [hnight]; rfl, by rw [hmorn]; cases skip <;> simp⟩


theorem day_ordering_sound_witness :
    day_order_constraints m0 wActive wCount ∧
    ((∀ i, i < m0.night_nodes.length → ∀ j, j < m0.night_nodes.length → i < j →
        wActive (m0.night_nodes.getD j 0) ≤ wActive (m0.night_nodes.getD i 0)) ∧
     (∀ i, i < m0.night_nodes.length → ∀ j, j < m0.night_nodes.length → i < j →
        wActive (m0.night_nodes.getD i 0) = 1 → wActive (m0.night_nodes.getD j 0) = 1 →
        wCount (m0.night_nodes.getD i 0) ≤ wCount (m0.night_nodes.getD j 0)) ∧
     (∀ i, i < m0.morning_nodes.length → ∀ j, j < m0.morning_nodes.length → i < j →
        wActive (m0.morning_nodes.getD j 0) ≤ wActive (m0.morning_nodes.getD i 0)) ∧
     (∀ i, i < m0.morning_nodes.length → ∀ j, j < m0.morning_nodes.length → i < j →
        wActive (m0.morning_nodes.getD i 0) = 1 → wActive (m0.morning_nodes.getD j 0) = 1 →
        wCount (m0.morning_nodes.getD i 0) ≤ wCount (m0.morning_nodes.getD j 0)) ∧
     (∀ a b : Nat, wActive a = 0 ∨ wActive b = 0 →
        wCount a * wActive a * wActive b = 0 ∧ wCount b * wActive a * wActive b = 0)) :=
  ⟨by unfold day_order_constraints; decide,
   day_ordering_sound m0 wActive wCount (by unfold day_order_constraints; decide)⟩

theorem night_morning_pairing_witness :
    build_model 3 6 18 false 5 = Except.ok m0 ∧
    day_order_constraints m0 wActive wCount ∧
    (m0.morning_nodes.length = m0.night_nodes.length ∧
     ∀ i, i < m0.night_nodes.length →
       wActive (m0.night_nodes.getD i 0) = wActive (m0.morning_nodes.getD i 0) ∧
       wCount (m0.morning_nodes.getD i 0) = wCount (m0.night_nodes.getD i 0) + 1 ∧
       ∀ k : Nat, ¬ (wCount (m0.night_nodes.getD i 0) < wCount k ∧
                     wCount k < wCount (m0.morning_nodes.getD i 0))) :=
  ⟨by rfl, by unfold day_order_constraints; decide,
   night_morning_pairing 3 6 18 5 m0 wActive wCount (by rfl)
     (by unfold day_order_constraints; decide)⟩

theorem node_augmentation_counts_witness :
    build_model 3 6 18 false 5 = Except.ok m0 ∧
    (m0.night_nodes = List.range' 5 ((3 : Int) - 1).toNat ∧
     m0.night_nodes.length = ((3 : Int) - 1).toNat ∧
     m0.morning_nodes =
       (if false then []
        else List.range' (5 + ((3 : Int) - 1).toNat) ((3 : Int) - 1).toNat) ∧
     m0.morning_nodes.length = (if false then 0 else ((3 : Int) - 1).toNat) ∧
     m0.total_nodes =
       (if false then 5 + ((3 : Int) - 1).toNat else 5 + 2 * ((3 : Int) - 1).toNat) ∧
     ((3 : Int) = 1 → m0.night_nodes = [] ∧ m0.morning_nodes = [] ∧ m0.total_nodes = 5)) :=
  ⟨by rfl, node_augmentation_counts 3 6 18 false 5 m0 (by rfl)⟩

/-- C4 counterexample: the Time dimension's slack upper bound is not
day_end - day_start; with day_start_hour 6 and day_end_hour 18 the code
produces 21600 = (day_end - day_start) - day_start, not 43200. -/
theorem slack_bound_not_day_span :
    ¬ (∀ (days start_hour end_hour : Int) (skip : Bool) (num : Nat) (m : Model),
        build_model days start_hour end_hour skip num = Except.ok m →
        m.Slack_Max = end_hour * 3600 - start_hour * 3600) := by
  intro hcl
  have h := hcl 2 6 18 false 5 mC4 (by rfl)
  exact absurd h (by decide)

/-- C4 amended: the Time dimension's slack upper bound is
(day_end - day_start) - day_start and the cumulative-total upper bound is
day_end, for every configuration. -/
theorem slack_capacity_bounds (days start_hour end_hour : Int) (skip : Bool)
    (num : Nat) (m : Model)
    (hm : build_model days start_hour end_hour skip num = Except.ok m) :
    m.Slack_Max = (end_hour * 3600 - start_hour * 3600) - start_hour * 3600 ∧
    m.Capacity = end_hour * 3600 := by
  obtain ⟨-, -, -, -, -, -, hs, hc, -⟩ := build_model_ok hm
  exact ⟨hs, hc⟩

theorem slack_capacity_bounds_witness :
    build_model 2 6 18 false 5 = Except.ok mC4 ∧
    (mC4.Slack_Max = ((18 : Int) * 3600 - 6 * 3600) - 6 * 3600 ∧
     mC4.Capacity = (18 : Int) * 3600) :=
  ⟨by rfl, slack_capacity_bounds 2 6 18 false 5 mC4 (by rfl)⟩


/-- C5: every time-window entry bounds its node to
[day_start, day_end]; the nodes so bounded are exactly the droppable real
locations (2 <= n < num_real) and all night and morning nodes; the route
start cumulative variable is bounded below by day_start and the route end
cumulative variable above by day_end. -/
theorem time_window_bounds (days start_hour end_hour : Int) (skip : Bool)
    (num : Nat) (m : Model)
    (hm : build_model days start_hour end_hour skip num = Except.ok m)
    (hnum : 2 ≤ num) :
    (∀ e ∈ m.time_windows, e.2.1 = start_hour * 3600 ∧ e.2.2 = end_hour * 3600) ∧
    (∀ n : Nat, (n, start_hour * 3600, end_hour * 3600) ∈ m.time_windows ↔
        (2 ≤ n ∧ n < num) ∨ n ∈ m.night_nodes ∨ n ∈ m.morning_nodes) ∧
    m.start_cumul_min = start_hour * 3600 ∧
    m.end_cumul_max = end_hour * 3600 := by
  obtain ⟨-, -, -, hnight, hmorn, htot, -, -, -, -, htw, hmin, hmax⟩ := build_model_ok hm
  refine ⟨?_, ?_, hmin, hmax⟩
  · rw [htw]
    intro e he
    rcases List.mem_append.mp he with h1 | h1 <;>
      obtain ⟨a, -, rfl⟩ := List.mem_map.mp h1 <;>
      exact ⟨rfl, rfl⟩
  · intro n
    rw [htw, htot, hnight, hmorn]
    cases skip
    · simp only [Bool.false_eq_true, if_false]
      simp only [List.mem_append, List.mem_map, List.mem_range'_1, List.length_range',
                 Prod.mk.injEq, and_true]
      constructor
      · rintro (⟨a, ha, rfl, -⟩ | ⟨a, ha, rfl, -⟩) <;> omega
      · rintro (h | h | h)
        · exact Or.inl ⟨n, by omega, rfl⟩
        · exact Or.inr ⟨n, by omega, rfl⟩
        · exact Or.inr ⟨n, by omega, rfl⟩
    · simp only [if_true]
      simp only [List.mem_append, List.mem_map, List.mem_range'_1, List.length_range',
                 List.length_nil, List.not_mem_nil, or_false,
                 Prod.mk.injEq, and_true]
      constructor
      · rintro (⟨a, ha, rfl, -⟩ | ⟨a, ha, rfl, -⟩) <;> omega
      · rintro (h | h)
        · exact Or.inl ⟨n, by omega, rfl⟩
        · exact Or.inr ⟨n, by omega, rfl⟩

/-- C6: the disjunctions are all singletons; a penalty-10000000 singleton
exists exactly for the droppable real locations 2 <= n < num_real, a
penalty-0 singleton exactly for the night and morning nodes, and no
disjunction ever mentions the reserved depot indices 0 and 1. -/
theorem disjunction_structure (days start_hour end_hour : Int) (skip : Bool)
    (num : Nat) (m : Model)
    (hm : build_model days start_hour end_hour skip num = Except.ok m)
    (hnum : 2 ≤ num) :
    (∀ p ∈ m.disjunctions, ∃ n : Nat, p.1 = [n]) ∧
    (∀ n : Nat, ([n], disjunction_penalty) ∈ m.disjunctions ↔ 2 ≤ n ∧ n < num) ∧
    (∀ n : Nat, ([n], (0 : Int)) ∈ m.disjunctions ↔
        n ∈ m.night_nodes ∨ n ∈ m.morning_nodes) ∧
    (∀ p ∈ m.disjunctions, 0 ∉ p.1 ∧ 1 ∉ p.1) := by
  obtain ⟨-, -, -, hnight, hmorn, -, -, -, -, hdisj, -⟩ := build_model_ok hm
  refine ⟨?_, ?_, ?_, ?_⟩
  · rw [hdisj]
    intro p hp
    rcases List.mem_append.mp hp with h1 | h1
    · rcases List.mem_append.mp h1 with h2 | h2 <;>
        obtain ⟨a, -, rfl⟩ := List.mem_map.mp h2 <;> exact ⟨a, rfl⟩
    · obtain ⟨a, -, rfl⟩ := List.mem_map.mp h1
      exact ⟨a, rfl⟩
  · intro n
    rw [hdisj]
    simp only [disjunction_penalty, List.mem_append, List.mem_map, List.mem_range'_1,
               Prod.mk.injEq, List.cons.injEq, and_true]
    constructor
    · rintro ((⟨a, ha, rfl, -⟩ | ⟨a, ha, -, hbad⟩) | ⟨a, ha, -, hbad⟩)
      · omega
      · exact absurd hbad (by norm_num)
      · exact absurd hbad (by norm_num)
    · intro h
      exact Or.inl (Or.inl ⟨n, by omega, rfl⟩)
  · intro n
    rw [hdisj]
    simp only [disjunction_penalty, List.mem_append, List.mem_map,
               Prod.mk.injEq, List.cons.injEq, and_true]
    constructor
    · rintro ((⟨a, ha, -, hbad⟩ | ⟨a, ha, rfl, -⟩) | ⟨a, ha, rfl, -⟩)
      · exact absurd hbad (by norm_num)
      · exact Or.inl ha
      · exact Or.inr ha
    · rintro (h | h)
      · exact Or.inl (Or.inr ⟨n, h, rfl⟩)
      · exact Or.inr ⟨n, h, rfl⟩
  · rw [hdisj]
    intro p hp
    have hk : ∃ k : Nat, 2 ≤ k ∧ p.1 = [k] := by
      rcases List.mem_append.mp hp with h1 | h1
      · rcases List.mem_append.mp h1 with h2 | h2
        · obtain ⟨a, ha, rfl⟩ := List.mem_map.mp h2
          rw [List.mem_range'_1] at ha
          exact ⟨a, by omega, rfl⟩
        · obtain ⟨a, ha, rfl⟩ := List.mem_map.mp h2
          rw [hnight, List.mem_range'_1] at ha
          exact ⟨a, by omega, rfl⟩
      · obtain ⟨a, ha, rfl⟩ := List.mem_map.mp h1
        rw [hmorn] at ha
        cases skip
        · simp only [Bool.false_eq_true, if_false, List.mem_range'_1] at ha
          exact ⟨a, by omega, rfl⟩
        · simp at ha
    obtain ⟨k, hk2, hkeq⟩ := hk
    rw [hkeq]
    simp
    omega

/-- C7: the Time slack variable is pinned to zero exactly at the droppable
real locations 2 <= n < num_real and at the morning nodes; the reserved
depot indices 0 and 1 and all night nodes are left unpinned. -/
theorem slack_pin_structure (days start_hour end_hour : Int) (skip : Bool)
    (num : Nat) (m : Model)
    (hm : build_model days start_hour end_hour skip num = Except.ok m)
    (hnum : 2 ≤ num) :
    (∀ n : Nat, n ∈ m.slack_zero_nodes ↔ (2 ≤ n ∧ n < num) ∨ n ∈ m.morning_nodes) ∧
    0 ∉ m.slack_zero_nodes ∧
    1 ∉ m.slack_zero_nodes ∧
    (∀ n ∈ m.night_nodes, n ∉ m.slack_zero_nodes) := by
  obtain ⟨-, -, -, hnight, hmorn, -, -, -, hsz, -⟩ := build_model_ok hm
  have hiff : ∀ n : Nat, n ∈ m.slack_zero_nodes ↔
      (2 ≤ n ∧ n < num) ∨ n ∈ m.morning_nodes := by
    intro n
    rw [hsz, List.mem_append, List.mem_range'_1]
    constructor
    · rintro (h | h)
      · exact Or.inl ⟨by omega, by omega⟩
      · exact Or.inr h
    · rintro (h | h)
      · exact Or.inl (by omega)
      · exact Or.inr h
  have hmnot : ∀ n : Nat, n ∈ m.morning_nodes → num ≤ n := by
    intro n hn
    rw [hmorn] at hn
    cases skip
    · simp only [Bool.false_eq_true, if_false, List.mem_range'_1] at hn
      omega
    · simp at hn
  refine ⟨hiff, ?_, ?_, ?_⟩
  · rw [hiff]
    rintro (h | h)
    · omega
    · have := hmnot 0 h
      omega
  · rw [hiff]
    rintro (h | h)
    · omega
    · have := hmnot 1 h
      omega
  · intro n hn
    rw [hnight, List.mem_range'_1] at hn
    rw [hiff]
    rintro (h | h)
    · omega
    · have h2 := hmnot n h
      rw [hmorn] at h
      cases skip
      · simp only [Bool.false_eq_true, if_false, List.mem_range'_1] at h
        omega
      · simp at h


/-- C8: the decoder records a node as dropped exactly when some routing
index below the model size maps to it, is neither the route start nor the
route end, the node is neither a night nor a morning node, and its chosen
successor is itself; provided the engine classifies every index mapping to
node 0 as a start and every index mapping to node 1 as an end, the dropped
list never contains 0, 1, or any synthetic day-boundary node. -/
theorem dropped_nodes_spec (size : Nat) (isStart isEnd : Nat → Bool)
    (night_nodes morning_nodes : List Nat) (indexToNode next : Nat → Nat)
    (hstart : ∀ idx : Nat, indexToNode idx = 0 → isStart idx = true)
    (hend : ∀ idx : Nat, indexToNode idx = 1 → isEnd idx = true) :
    (∀ n : Nat,
      n ∈ dropped_nodes size isStart isEnd night_nodes morning_nodes indexToNode next ↔
        ∃ idx : Nat, idx < size ∧ isStart idx = false ∧ isEnd idx = false ∧
          indexToNode idx = n ∧ n ∉ night_nodes ∧ n ∉ morning_nodes ∧
          next idx = idx) ∧
    0 ∉ dropped_nodes size isStart isEnd night_nodes morning_nodes indexToNode next ∧
    1 ∉ dropped_nodes size isStart isEnd night_nodes morning_nodes indexToNode next ∧
    (∀ n ∈ night_nodes,
      n ∉ dropped_nodes size isStart isEnd night_nodes morning_nodes indexToNode next) ∧
    (∀ n ∈ morning_nodes,
      n ∉ dropped_nodes size isStart isEnd night_nodes morning_nodes indexToNode next) := by
  have hiff : ∀ n : Nat,
      n ∈ dropped_nodes size isStart isEnd night_nodes morning_nodes indexToNode next ↔
        ∃ idx : Nat, idx < size ∧ isStart idx = false ∧ isEnd idx = false ∧
          indexToNode idx = n ∧ n ∉ night_nodes ∧ n ∉ morning_nodes ∧
          next idx = idx := by
    intro n
    rw [dropped_nodes, List.mem_filterMap]
    constructor
    · rintro ⟨idx, hidx, hf⟩
      rw [List.mem_range] at hidx
      by_cases h1 : isStart idx || isEnd idx
      · rw [if_pos h1] at hf
        exact absurd hf (by simp)
      · rw [if_neg h1] at hf
        simp only [Bool.or_eq_true, not_or, Bool.not_eq_true] at h1
        by_cases h2 : night_nodes.contains (indexToNode idx)
              || morning_nodes.contains (indexToNode idx)
        · rw [if_pos h2] at hf
          exact absurd hf (by simp)
        · rw [if_neg h2] at hf
          simp only [Bool.or_eq_true, not_or, Bool.not_eq_true, List.contains,
                     List.elem_eq_mem, decide_eq_false_iff_not] at h2
          by_cases h3 : next idx = idx
          · rw [if_pos h3] at hf
            injection hf with hf
            subst hf
            exact ⟨idx, hidx, h1.1, h1.2, rfl, h2.1, h2.2, h3⟩
          · rw [if_neg h3] at hf
            exact absurd hf (by simp)
    · rintro ⟨idx, hidx, hs, he, hton, hnn, hmn, hnext⟩
      refine ⟨idx, List.mem_range.mpr hidx, ?_⟩
      rw [if_neg (by simp [hs, he]), if_neg (by simp [List.contains, List.elem_eq_mem, hton, hnn, hmn]),
          if_pos hnext, hton]
  refine ⟨hiff, ?_, ?_, ?_, ?_⟩
  · rw [hiff]
    rintro ⟨idx, -, hs, -, hton, -⟩
    rw [hstart idx hton] at hs
    cases hs
  · rw [hiff]
    rintro ⟨idx, -, -, he, hton, -⟩
    rw [hend idx hton] at he
    cases he
  · intro n hn
    rw [hiff]
    rintro ⟨idx, -, -, -, -, hnn, -⟩
    exact hnn hn
  · intro n hn
    rw [hiff]
    rintro ⟨idx, -, -, -, -, -, hmn, -⟩
    exact hmn hn

/-- C9: a configuration with days <= 0 is rejected as a fatal error before
any model is built, and every configuration with days >= 1 produces a
model. -/
theorem days_validation (days start_hour end_hour : Int) (skip : Bool) (num : Nat) :
    (days ≤ 0 → build_model days start_hour end_hour skip num =
        Except.error ("--days parameter must be 1 or more")) ∧
    (1 ≤ days → ∃ m : Model,
        build_model days start_hour end_hour skip num = Except.ok m) := by
  constructor
  · intro h
    unfold build_model
    rw [if_pos h]
  · intro h
    unfold build_model
    rw [if_neg (by omega)]
    exact ⟨_, rfl⟩

/-- C10: for a duration of ts whole seconds with 0 <= ts < 24*3600,
timedelta_format returns the "%H:%S" rendering of a time whose hour field
is ts/3600 and whose second field is the minutes count ts%3600/60; outside
that range the time constructor fails and no string is returned. -/
theorem timedelta_format_spec (ts : Int) :
    (0 ≤ ts → ts < 24 * 3600 →
      timedelta_format ts =
        some (two_digit (ts / 3600) ++ ":" ++ two_digit (ts % 3600 / 60))) ∧
    (ts < 0 ∨ 24 * 3600 ≤ ts → timedelta_format ts = none) := by
  constructor
  · intro h0 h1
    rw [timedelta_format, mk_time, if_pos]
    · rfl
    · refine ⟨by omega, by omega, by omega, by omega⟩
  · intro h
    rw [timedelta_format, mk_time, if_neg]
    · rfl
    · rintro ⟨ha, hb, -, -⟩
      rcases h with h | h <;> omega


theorem time_window_bounds_witness :
    build_model 3 6 18 false 5 = Except.ok m0 ∧ 2 ≤ 5 ∧
    ((∀ e ∈ m0.time_windows, e.2.1 = (6 : Int) * 3600 ∧ e.2.2 = (18 : Int) * 3600) ∧
     (∀ n : Nat, (n, (6 : Int) * 3600, (18 : Int) * 3600) ∈ m0.time_windows ↔
         (2 ≤ n ∧ n < 5) ∨ n ∈ m0.night_nodes ∨ n ∈ m0.morning_nodes) ∧
     m0.start_cumul_min = (6 : Int) * 3600 ∧
     m0.end_cumul_max = (18 : Int) * 3600) :=
  ⟨by rfl, by decide, time_window_bounds 3 6 18 false 5 m0 (by rfl) (by decide)⟩

theorem disjunction_structure_witness :
    build_model 3 6 18 false 5 = Except.ok m0 ∧ 2 ≤ 5 ∧
    ((∀ p ∈ m0.disjunctions, ∃ n : Nat, p.1 = [n]) ∧
     (∀ n : Nat, ([n], disjunction_penalty) ∈ m0.disjunctions ↔ 2 ≤ n ∧ n < 5) ∧
     (∀ n : Nat, ([n], (0 : Int)) ∈ m0.disjunctions ↔
         n ∈ m0.night_nodes ∨ n ∈ m0.morning_nodes) ∧
     (∀ p ∈ m0.disjunctions, 0 ∉ p.1 ∧ 1 ∉ p.1)) :=
  ⟨by rfl, by decide, disjunction_structure 3 6 18 false 5 m0 (by rfl) (by decide)⟩

theorem slack_pin_structure_witness :
    build_model 3 6 18 false 5 = Except.ok m0 ∧ 2 ≤ 5 ∧
    ((∀ n : Nat, n ∈ m0.slack_zero_nodes ↔ (2 ≤ n ∧ n < 5) ∨ n ∈ m0.morning_nodes) ∧
     0 ∉ m0.slack_zero_nodes ∧
     1 ∉ m0.slack_zero_nodes ∧
     (∀ n ∈ m0.night_nodes, n ∉ m0.slack_zero_nodes)) :=
  ⟨by rfl, by decide, slack_pin_structure 3 6 18 false 5 m0 (by rfl) (by decide)⟩

theorem dropped_nodes_spec_witness :
    (∀ idx : Nat, wIndexToNode idx = 0 → wIsStart idx = true) ∧
    (∀ idx : Nat, wIndexToNode idx = 1 → wIsEnd idx = true) ∧
    ((∀ n : Nat,
      n ∈ dropped_nodes 7 wIsStart wIsEnd [5] [6] wIndexToNode wNext ↔
        ∃ idx : Nat, idx < 7 ∧ wIsStart idx = false ∧ wIsEnd idx = false ∧
          wIndexToNode idx = n ∧ n ∉ [5] ∧ n ∉ [6] ∧ wNext idx = idx) ∧
    0 ∉ dropped_nodes 7 wIsStart wIsEnd [5] [6] wIndexToNode wNext ∧
    1 ∉ dropped_nodes 7 wIsStart wIsEnd [5] [6] wIndexToNode wNext ∧
    (∀ n ∈ [5],
      n ∉ dropped_nodes 7 wIsStart wIsEnd [5] [6] wIndexToNode wNext) ∧
    (∀ n ∈ [6],
      n ∉ dropped_nodes 7 wIsStart wIsEnd [5] [6] wIndexToNode wNext)) :=
  ⟨fun idx h => by simp [wIndexToNode] at h; simp [wIsStart, h],
   fun idx h => by simp [wIndexToNode] at h; simp [wIsEnd, h],
   dropped_nodes_spec 7 wIsStart wIsEnd [5] [6] wIndexToNode wNext
     (fun idx h => by simp [wIndexToNode] at h; simp [wIsStart, h])
     (fun idx h => by simp [wIndexToNode] at h; simp [wIsEnd, h])⟩

theorem days_validation_witness :
    build_model 0 6 18 false 5 = Except.error ("--days parameter must be 1 or more") ∧
    (∃ m : Model, build_model 2 6 18 false 5 = Except.ok m) :=
  ⟨(days_validation 0 6 18 false 5).1 (by norm_num),
   (days_validation 2 6 18 false 5).2 (by norm_num)⟩

theorem timedelta_format_spec_witness :
    timedelta_format 3725 =
      some (two_digit ((3725 : Int) / 3600) ++ ":" ++ two_digit ((3725 : Int) % 3600 / 60)) ∧
    timedelta_format (-5) = none ∧
    timedelta_format 86400 = none :=
  ⟨(timedelta_format_spec 3725).1 (by norm_num) (by norm_num),
   (timedelta_format_spec (-5)).2 (Or.inl (by norm_num)),
   (timedelta_format_spec 86400).2 (Or.inr (by norm_num))⟩

end TspMultipleDays
